import Mathlib

/-!
Verification of the sign-in flow orchestrator of
react-native-google-signin-modern.

The development shallowly embeds, in Lean, the code that the claims are
about:

* the JS nonce generator `getUrlSafeNonce` (src/src/index.tsx), with the
  random byte array passed in explicitly as a list of naturals;
* the Android module `GoogleSigninModernModule.kt`: nonce format
  validation, JWT nonce-binding / subject extraction, the unified
  `performSignIn` / `performCredentialRequest` / `handleCredentialException`
  flow machinery, `signOut`, and `isSignedIn`;
* the slices of the iOS module `GoogleSigninModern.mm` and of the JS
  wrapper class (index.tsx) that individual claims cite.

The orchestrator is modelled as a state machine: a module state (the
`webClientId`, the credential-manager handle, and the single
pending-promise slot) together with a trace of externally visible
actions (provider calls, promise settlements, the add-account intent,
and the clearing of the pending slot).  Platform collaborators that are
not code of this repository (the credential provider, Base64, the JSON
parser) are parameters of the embedding.
-/

namespace GoogleSigninModern

/-- Character class of the URL-safe base64 alphabet used both by the JS
generator (`chars` in getUrlSafeNonce) and by the Android regex
`[A-Za-z0-9_-]` in validateNonce. -/
def isUrlSafeChar (c : Char) : Bool :=
  ('A' ≤ c && c ≤ 'Z') || ('a' ≤ c && c ≤ 'z') || ('0' ≤ c && c ≤ '9') ||
    c == '-' || c == '_'

/-- Kotlin String.isBlank: empty or all whitespace. -/
def isBlankStr (s : String) : Bool :=
  s.data.all Char.isWhitespace

/-- Android GoogleSigninModernModule.validateNonce: the nonce format
check (blank, length below 32, length above 255, URL-safe alphabet).
Kotlin signals failure by throwing IllegalArgumentException; the
embedding returns the exception message in the error case. -/
def validateNonce (nonce : String) : Except String String :=
  if isBlankStr nonce then
    Except.error "Nonce cannot be blank"
  else if nonce.length < 32 then
    Except.error "Nonce must be at least 32 characters long for security"
  else if nonce.length > 255 then
    Except.error "Nonce is too long (max 255 characters)"
  else if !(!nonce.data.isEmpty && nonce.data.all isUrlSafeChar) then
    Except.error "Nonce must be URL-safe base64 encoded (alphanumeric, -, _ only)"
  else
    Except.ok nonce

/-- Alphabet string of getUrlSafeNonce (index.tsx): the 64 characters
used for the URL-safe base64 encoding. -/
def base64UrlChars : List Char :=
  "ABCDEFGHIJKLMNOPQRSTUVWXYZabcdefghijklmnopqrstuvwxyz0123456789-_".data

/-- JS chars.charAt for the base64 alphabet; every index produced by the
encoder is masked with 63 and hence in range. -/
def b64CharAt (i : Nat) : Char :=
  base64UrlChars.getD i '?'

/-- Base64 encoding loop of getUrlSafeNonce (index.tsx lines 129-145):
bytes are consumed in groups of three; missing second and third bytes of
a final partial group default to 0 and suppress the third and fourth
output characters. -/
def encodeBase64Url : List Nat → List Char
  | [] => []
  | [a] =>
    let bitmap := (a <<< 16) ||| (0 <<< 8) ||| 0
    [b64CharAt ((bitmap >>> 18) &&& 63), b64CharAt ((bitmap >>> 12) &&& 63)]
  | [a, b] =>
    let bitmap := (a <<< 16) ||| (b <<< 8) ||| 0
    [b64CharAt ((bitmap >>> 18) &&& 63), b64CharAt ((bitmap >>> 12) &&& 63),
     b64CharAt ((bitmap >>> 6) &&& 63)]
  | a :: b :: c :: rest =>
    let bitmap := (a <<< 16) ||| (b <<< 8) ||| c
    b64CharAt ((bitmap >>> 18) &&& 63) :: b64CharAt ((bitmap >>> 12) &&& 63) ::
      b64CharAt ((bitmap >>> 6) &&& 63) :: b64CharAt (bitmap &&& 63) ::
      encodeBase64Url rest

/-- JS getUrlSafeNonce (index.tsx lines 103-148).  The cryptographically
random byte array is passed in explicitly (entries are bytes, below
256); the two range guards reject byteLength below 16 and above 128 by
throwing, modelled as the error case. -/
def getUrlSafeNonce (byteLength : Nat) (randomBytes : List Nat) : Except String String :=
  if byteLength < 16 then
    Except.error "Nonce must be at least 16 bytes long for security"
  else if byteLength > 128 then
    Except.error "Nonce length should not exceed 128 bytes"
  else
    Except.ok (String.mk (encodeBase64Url randomBytes))

theorem encodeBase64Url_length (bytes : List Nat) :
    (encodeBase64Url bytes).length = (4 * bytes.length + 2) / 3 := by
  induction bytes using encodeBase64Url.induct with
  | case1 => rfl
  | case2 a => simp [encodeBase64Url]
  | case3 a b => simp [encodeBase64Url]
  | case4 a b c rest ih =>
    simp only [encodeBase64Url, List.length_cons]
    rw [ih]
    omega

theorem b64CharAt_urlSafe (i : Nat) (h : i < 64) :
    isUrlSafeChar (b64CharAt i) = true := by
  have : ∀ j : Fin 64, isUrlSafeChar (b64CharAt j.val) = true := by decide
  exact this ⟨i, h⟩

theorem encodeBase64Url_chars (bytes : List Nat) :
    (encodeBase64Url bytes).all isUrlSafeChar = true := by
  induction bytes using encodeBase64Url.induct with
  | case1 => rfl
  | case2 a =>
    simp only [encodeBase64Url, List.all_cons, List.all_nil, Bool.and_true,
      Bool.and_eq_true]
    exact ⟨b64CharAt_urlSafe _ (Nat.lt_succ_of_le Nat.and_le_right),
      b64CharAt_urlSafe _ (Nat.lt_succ_of_le Nat.and_le_right)⟩
  | case3 a b =>
    simp only [encodeBase64Url, List.all_cons, List.all_nil, Bool.and_true,
      Bool.and_eq_true]
    exact ⟨b64CharAt_urlSafe _ (Nat.lt_succ_of_le Nat.and_le_right),
      b64CharAt_urlSafe _ (Nat.lt_succ_of_le Nat.and_le_right),
      b64CharAt_urlSafe _ (Nat.lt_succ_of_le Nat.and_le_right)⟩
  | case4 a b c rest ih =>
    simp only [encodeBase64Url, List.all_cons, Bool.and_eq_true]
    exact ⟨b64CharAt_urlSafe _ (Nat.lt_succ_of_le Nat.and_le_right),
      b64CharAt_urlSafe _ (Nat.lt_succ_of_le Nat.and_le_right),
      b64CharAt_urlSafe _ (Nat.lt_succ_of_le Nat.and_le_right),
      b64CharAt_urlSafe _ (Nat.lt_succ_of_le Nat.and_le_right), ih⟩

/-- Error code constants of the Android module companion object. -/
def ERROR_NOT_CONFIGURED : String := "NOT_CONFIGURED"

def ERROR_NO_ACTIVITY : String := "NO_ACTIVITY"

def ERROR_SIGN_IN_IN_PROGRESS : String := "SIGN_IN_IN_PROGRESS"

def ERROR_NO_GOOGLE_ACCOUNTS : String := "NO_GOOGLE_ACCOUNTS"

def ERROR_SIGN_IN_ERROR : String := "SIGN_IN_ERROR"

def ERROR_CREDENTIAL_PARSE_ERROR : String := "CREDENTIAL_PARSE_ERROR"

def ERROR_UNEXPECTED_CREDENTIAL : String := "UNEXPECTED_CREDENTIAL"

def ERROR_SIGN_OUT_REQUESTED : String := "SIGN_OUT_REQUESTED"

def ERROR_NO_USER : String := "NO_USER"

def ERROR_TOKEN_REFRESH_ERROR : String := "TOKEN_REFRESH_ERROR"

def ERROR_NONCE_ERROR : String := "NONCE_ERROR"

def ERROR_NONCE_VALIDATION_ERROR : String := "NONCE_VALIDATION_ERROR"

/-- Credential type constant for Google ID token credentials. -/
def GOOGLE_ID_TOKEN_CREDENTIAL_TYPE : String :=
  "com.google.android.libraries.identity.googleid.TYPE_GOOGLE_ID_TOKEN_CREDENTIAL"

/-- Exception type constant for the structured no-credential failure. -/
def NO_CREDENTIAL_EXCEPTION_TYPE : String :=
  "androidx.credentials.exceptions.GetCredentialException.TYPE_NO_CREDENTIAL"

/-- Payload of a GoogleIdTokenCredential as the module reads it: the id
token string, the account id (the email), and the optional display name
and profile picture URI. -/
structure GoogleCred where
  idToken : String
  id : String
  displayName : Option String
  profilePictureUri : Option String
deriving DecidableEq

/-- A GetCredentialException as the classifier sees it: its type string,
its nullable message, and whether it is a NoCredentialException
subclass. -/
structure CredException where
  type : String
  message : Option String
  isNoCredentialException : Bool
deriving DecidableEq

deriving instance DecidableEq for Except

/-- A raw credential from the provider: either a direct
GoogleIdTokenCredential instance, or some other credential carrying a
type string whose data GoogleIdTokenCredential.createFrom may or may
not parse (the error case carries the parse exception message). -/
inductive RawCredential where
  | googleIdInstance (g : GoogleCred)
  | other (type : String) (parsed : Except String GoogleCred)
deriving DecidableEq

/-- Outcome of one CredentialManager.getCredential call: a credential
response, a GetCredentialException, or any other exception (with its
nullable message). -/
inductive ProviderOutcome where
  | success (credential : RawCredential)
  | credError (e : CredException)
  | otherError (message : Option String)
deriving DecidableEq

/-- Platform JWT collaborators (android.util.Base64 and org.json), which
are not code of this repository: decodePayload is the
Base64-URL-decode-to-string step applied to a token segment (none for a
decode exception), parseClaims is JSONObject parsing of the decoded
payload into a claims map (none for a parse exception). -/
structure JwtLib where
  decodePayload : String → Option String
  parseClaims : String → Option (List (String × String))

/-- Splitting on the dot character, as Kotlin String.split(".") does:
every occurrence separates, empty segments are kept. -/
def splitOnDotAux (cur : List Char) : List Char → List (List Char)
  | [] => [cur.reverse]
  | c :: rest =>
    if c = '.' then cur.reverse :: splitOnDotAux [] rest
    else splitOnDotAux (c :: cur) rest

/-- Dot-separated segments of a string (Kotlin split(".")). -/
def splitOnDot (s : String) : List String :=
  (splitOnDotAux [] s.data).map String.mk

/-- Android validateNonceInIdToken (module lines 226-246): split the
token on dots, decode the second segment, parse it, and compare the
nonce claim (JSONObject.optString with null default) against the
expected nonce; any exception yields false. -/
def validateNonceInIdToken (lib : JwtLib) (idToken expectedNonce : String) : Bool :=
  let parts := splitOnDot idToken
  if 2 ≤ parts.length then
    match lib.decodePayload (parts.getD 1 "") with
    | none => false
    | some payload =>
      match lib.parseClaims payload with
      | none => false
      | some json =>
        match json.lookup "nonce" with
        | some tokenNonce => tokenNonce == expectedNonce
        | none => false
  else false

/-- Android extractUserIdFromToken: read the sub claim of the decoded
payload, with every failure mapped to null. -/
def extractUserIdFromToken (lib : JwtLib) (idToken : String) : Option String :=
  let parts := splitOnDot idToken
  if 2 ≤ parts.length then
    match lib.decodePayload (parts.getD 1 "") with
    | none => none
    | some payload =>
      match lib.parseClaims payload with
      | none => none
      | some json => json.lookup "sub"
  else none

/-- User map of a sign-in response. -/
structure UserMap where
  id : String
  name : Option String
  email : String
  photo : Option String
deriving DecidableEq

/-- WritableMap payloads the module resolves with: the sign-in shape
(idToken, user, optional nonce) or the token-refresh shape (idToken,
accessToken). -/
inductive Response where
  | signInMap (idToken : String) (user : UserMap) (nonce : Option String)
  | tokensMap (idToken : String) (accessToken : String)
deriving DecidableEq

/-- Android createSignInResponse: validate the nonce binding when a
nonce was supplied (a mismatch throws SecurityException, the error
case), then build the user map with the sub claim preferred over the
account id. -/
def createSignInResponse (lib : JwtLib) (credential : GoogleCred)
    (nonce : Option String) : Except String Response :=
  let idToken := credential.idToken
  match nonce with
  | some n =>
    if !validateNonceInIdToken lib idToken n then
      Except.error "Nonce validation failed: ID token nonce doesn\x27t match request nonce"
    else
      let stableUserId := (extractUserIdFromToken lib idToken).getD credential.id
      Except.ok (Response.signInMap idToken
        ⟨stableUserId, credential.displayName, credential.id, credential.profilePictureUri⟩
        (some n))
  | none =>
    let stableUserId := (extractUserIdFromToken lib idToken).getD credential.id
    Except.ok (Response.signInMap idToken
      ⟨stableUserId, credential.displayName, credential.id, credential.profilePictureUri⟩
      none)

/-- Flow types of the unified sign-in machinery. -/
inductive SignInFlowType where
  | INTERACTIVE
  | SILENT
  | TOKEN_REFRESH
deriving DecidableEq

/-- Android createResponseForFlowType: token refresh gets the tokens
shape (with an empty access token), the other flows the sign-in
shape. -/
def createResponseForFlowType (lib : JwtLib) (credential : GoogleCred)
    (flowType : SignInFlowType) (nonce : Option String) : Except String Response :=
  match flowType with
  | SignInFlowType.TOKEN_REFRESH =>
    Except.ok (Response.tokensMap credential.idToken "")
  | _ => createSignInResponse lib credential nonce

/-- Module state: the configured web client id, whether a
CredentialManager handle is held, and the single pending promise slot
(promises are identified by naturals). -/
structure ModuleState where
  webClientId : Option String
  credentialManager : Bool
  pendingPromise : Option Nat
deriving DecidableEq

/-- Externally visible primitive actions of one orchestrator run, in
program order: a provider getCredential call, firing the add-account
intent, resolving or rejecting a promise, and the assignment clearing
the pending slot. -/
inductive Action where
  | providerCall (filterByAuthorizedAccounts : Bool) (nonce : Option String)
  | addAccountIntent
  | resolvePromise (p : Nat) (result : Option Response)
  | rejectPromise (p : Nat) (code : String) (message : String)
  | clearSlot
deriving DecidableEq

/-- Android clearPendingPromiseWithError: reject the pending promise if
any (else the fallback, if any), then null the slot. -/
def clearPendingPromiseWithError (st : ModuleState) (errorCode message : String)
    (fallbackPromise : Option Nat) : List Action × ModuleState :=
  let activePromise := match st.pendingPromise with
    | some p => some p
    | none => fallbackPromise
  ((match activePromise with
    | some p => [Action.rejectPromise p errorCode message]
    | none => []) ++ [Action.clearSlot],
   { st with pendingPromise := none })

/-- Kotlin string interpolation of a nullable message. -/
def showMsg (m : Option String) : String :=
  match m with
  | some s => s
  | none => "null"

/-- ASCII lowercasing standing for Kotlin String.lowercase(). -/
def lowerAscii (s : String) : String :=
  String.mk (s.data.map Char.toLower)

/-- Substring containment on character lists (Kotlin String.contains). -/
def containsChars (pattern : List Char) : List Char → Bool
  | [] => pattern.isEmpty
  | c :: rest => pattern.isPrefixOf (c :: rest) || containsChars pattern rest

/-- Android triggerAddGoogleAccountIntent: start the add-account
activity when a current activity exists; best effort, never fails. -/
def triggerAddGoogleAccountIntent (activity : Bool) : List Action :=
  if activity then [Action.addAccountIntent] else []

/-- Android handleNoAccountsError (module lines 430-448): recognize the
no-accounts condition by the structured exception type or subclass
first, then by case-insensitive message substrings, trigger the
add-account intent, and reject with NO_GOOGLE_ACCOUNTS; otherwise
reject with SIGN_IN_ERROR. -/
def handleNoAccountsError (st : ModuleState) (activity : Bool)
    (e : CredException) : List Action × ModuleState :=
  if e.type == NO_CREDENTIAL_EXCEPTION_TYPE || e.isNoCredentialException then
    let r := clearPendingPromiseWithError st ERROR_NO_GOOGLE_ACCOUNTS
      "Please add a Google account to continue. The account settings have been opened for you." none
    (triggerAddGoogleAccountIntent activity ++ r.1, r.2)
  else
    let errorMessage := lowerAscii (e.message.getD "")
    if containsChars "no credentials available".data errorMessage.data ||
        containsChars "no accounts".data errorMessage.data then
      let r := clearPendingPromiseWithError st ERROR_NO_GOOGLE_ACCOUNTS
        "Please add a Google account to continue. The account settings have been opened for you." none
      (triggerAddGoogleAccountIntent activity ++ r.1, r.2)
    else
      clearPendingPromiseWithError st ERROR_SIGN_IN_ERROR
        ("Sign-in failed: " ++ showMsg e.message) none

/-- Kotlin flowType.name.lowercase for error messages. -/
def flowName (flowType : SignInFlowType) : String :=
  match flowType with
  | SignInFlowType.INTERACTIVE => "interactive"
  | SignInFlowType.SILENT => "silent"
  | SignInFlowType.TOKEN_REFRESH => "token_refresh"

/-- Success half of the getCredential callback in
performCredentialRequest (the when block over result.credential, module
lines 328-356): a direct GoogleIdTokenCredential resolves with the flow
response (a SecurityException from nonce binding escapes to the outer
catch and becomes NONCE_VALIDATION_ERROR); a credential matched only by
type string is parsed with createFrom inside a catch whose handler
turns any exception, the SecurityException included, into the parse
error code; other type strings are the unexpected-credential case. -/
def handleCredentialSuccess (lib : JwtLib) (st : ModuleState) (raw : RawCredential)
    (flowType : SignInFlowType) (nonce : Option String) : List Action × ModuleState :=
  match raw with
  | RawCredential.googleIdInstance g =>
    (match createResponseForFlowType lib g flowType nonce with
    | Except.ok response =>
      ((match st.pendingPromise with
        | some p => [Action.resolvePromise p (some response)]
        | none => []) ++ [Action.clearSlot],
       { st with pendingPromise := none })
    | Except.error msg =>
      clearPendingPromiseWithError st ERROR_NONCE_VALIDATION_ERROR
        ("Nonce validation failed: " ++ msg) none)
  | RawCredential.other t parsed =>
    if t == GOOGLE_ID_TOKEN_CREDENTIAL_TYPE then
      match parsed with
      | Except.ok g =>
        (match createResponseForFlowType lib g flowType nonce with
        | Except.ok response =>
          ((match st.pendingPromise with
            | some p => [Action.resolvePromise p (some response)]
            | none => []) ++ [Action.clearSlot],
           { st with pendingPromise := none })
        | Except.error msg =>
          let errorCode := if flowType == SignInFlowType.TOKEN_REFRESH
            then ERROR_TOKEN_REFRESH_ERROR else ERROR_CREDENTIAL_PARSE_ERROR
          clearPendingPromiseWithError st errorCode
            ("Failed to parse Google credential: " ++ msg) none)
      | Except.error parseMsg =>
        let errorCode := if flowType == SignInFlowType.TOKEN_REFRESH
          then ERROR_TOKEN_REFRESH_ERROR else ERROR_CREDENTIAL_PARSE_ERROR
        clearPendingPromiseWithError st errorCode
          ("Failed to parse Google credential: " ++ parseMsg) none
    else
      let errorCode := if flowType == SignInFlowType.TOKEN_REFRESH
        then ERROR_TOKEN_REFRESH_ERROR else ERROR_UNEXPECTED_CREDENTIAL
      clearPendingPromiseWithError st errorCode
        ("Unexpected credential type: " ++ t) none

mutual

/-- Android performCredentialRequest (module lines 295-371): one
getCredential call against the provider (a function from the filter
flag to the outcome of the call issued with that filter), followed by
response construction or exception handling.  Returns the emitted
actions and the resulting module state.  Silently returns when no
current activity exists. -/
def performCredentialRequest (lib : JwtLib) (provider : Bool → ProviderOutcome)
    (activity : Bool) (st : ModuleState) (filterByAuthorizedAccounts : Bool)
    (flowType : SignInFlowType) (nonce : Option String) : List Action × ModuleState :=
  if !activity then ([], st)
  else
    let step : List Action × ModuleState :=
      match provider filterByAuthorizedAccounts with
      | ProviderOutcome.success raw =>
        handleCredentialSuccess lib st raw flowType nonce
      | ProviderOutcome.credError e =>
        handleCredentialException lib provider activity st e
          filterByAuthorizedAccounts flowType nonce
      | ProviderOutcome.otherError m =>
        let errorCode := if flowType == SignInFlowType.TOKEN_REFRESH
          then ERROR_TOKEN_REFRESH_ERROR else ERROR_SIGN_IN_ERROR
        clearPendingPromiseWithError st errorCode
          (flowName flowType ++ " failed: " ++ showMsg m) none
    (Action.providerCall filterByAuthorizedAccounts nonce :: step.1, step.2)
termination_by (if filterByAuthorizedAccounts then 3 else 1 : Nat)
decreasing_by cases filterByAuthorizedAccounts <;> simp

/-- Android handleCredentialException (module lines 397-425): the
interactive flow retries once with the relaxed filter on the structured
no-credential type, otherwise classifies; the silent and token-refresh
flows classify the no-credential signal as SIGN_IN_REQUIRED and NO_USER
respectively and never retry. -/
def handleCredentialException (lib : JwtLib) (provider : Bool → ProviderOutcome)
    (activity : Bool) (st : ModuleState) (e : CredException)
    (filterByAuthorizedAccounts : Bool) (flowType : SignInFlowType)
    (nonce : Option String) : List Action × ModuleState :=
  match flowType with
  | SignInFlowType.INTERACTIVE =>
    if h : filterByAuthorizedAccounts && e.type == NO_CREDENTIAL_EXCEPTION_TYPE then
      performCredentialRequest lib provider activity st false flowType nonce
    else
      handleNoAccountsError st activity e
  | SignInFlowType.SILENT =>
    if e.type == NO_CREDENTIAL_EXCEPTION_TYPE || e.isNoCredentialException then
      clearPendingPromiseWithError st "SIGN_IN_REQUIRED"
        "The user has never signed in before, or they have since signed out." none
    else
      clearPendingPromiseWithError st ERROR_SIGN_IN_ERROR
        ("Silent sign-in failed: " ++ showMsg e.message) none
  | SignInFlowType.TOKEN_REFRESH =>
    if e.type == NO_CREDENTIAL_EXCEPTION_TYPE || e.isNoCredentialException then
      clearPendingPromiseWithError st ERROR_NO_USER
        "No user signed in. Please sign in first." none
    else
      clearPendingPromiseWithError st ERROR_TOKEN_REFRESH_ERROR
        ("Token refresh failed: " ++ showMsg e.message) none
termination_by (if filterByAuthorizedAccounts then 2 else 0 : Nat)
decreasing_by
  simp only [Bool.and_eq_true] at h
  rw [h.1]
  simp

end

/-- Android performSignIn (module lines 147-188): the synchronous
guards (configured, credential manager held, current activity present,
no pending operation), installation of the pending promise, and the
first credential request with the authorized-accounts filter. -/
def performSignIn (lib : JwtLib) (provider : Bool → ProviderOutcome)
    (activity : Bool) (st : ModuleState) (promise : Nat)
    (flowType : SignInFlowType) (nonce : Option String) : List Action × ModuleState :=
  if st.webClientId.isNone then
    ([Action.rejectPromise promise ERROR_NOT_CONFIGURED
        "Google Sign-In not configured. Call configure() first."], st)
  else if !st.credentialManager then
    ([Action.rejectPromise promise ERROR_NOT_CONFIGURED
        "Credential manager not initialized"], st)
  else if !activity then
    ([Action.rejectPromise promise ERROR_NO_ACTIVITY "No current activity found"], st)
  else if st.pendingPromise.isSome then
    ([Action.rejectPromise promise ERROR_SIGN_IN_IN_PROGRESS
        "Sign-in already in progress"], st)
  else
    performCredentialRequest lib provider activity
      { st with pendingPromise := some promise } true flowType nonce

/-- Android signIn (module lines 101-116): validate a supplied nonce
first (rejecting with NONCE_ERROR on failure, before any guard of
performSignIn runs), then run the interactive flow. -/
def signIn (lib : JwtLib) (provider : Bool → ProviderOutcome) (activity : Bool)
    (st : ModuleState) (promise : Nat) (nonce : Option String) : List Action × ModuleState :=
  match nonce with
  | none => performSignIn lib provider activity st promise SignInFlowType.INTERACTIVE none
  | some n =>
    match validateNonce n with
    | Except.ok validated =>
      performSignIn lib provider activity st promise SignInFlowType.INTERACTIVE (some validated)
    | Except.error msg =>
      ([Action.rejectPromise promise ERROR_NONCE_ERROR ("Invalid nonce: " ++ msg)], st)

/-- Android signInSilently (module lines 118-133): same wrapper as
signIn but with the silent flow. -/
def signInSilently (lib : JwtLib) (provider : Bool → ProviderOutcome) (activity : Bool)
    (st : ModuleState) (promise : Nat) (nonce : Option String) : List Action × ModuleState :=
  match nonce with
  | none => performSignIn lib provider activity st promise SignInFlowType.SILENT none
  | some n =>
    match validateNonce n with
    | Except.ok validated =>
      performSignIn lib provider activity st promise SignInFlowType.SILENT (some validated)
    | Except.error msg =>
      ([Action.rejectPromise promise ERROR_NONCE_ERROR ("Invalid nonce: " ++ msg)], st)

/-- Android getTokens (module lines 519-528): the token-refresh flow
with no nonce. -/
def getTokens (lib : JwtLib) (provider : Bool → ProviderOutcome) (activity : Bool)
    (st : ModuleState) (promise : Nat) : List Action × ModuleState :=
  performSignIn lib provider activity st promise SignInFlowType.TOKEN_REFRESH none

/-- Android signOut (module lines 469-487): reject any pending promise
with SIGN_OUT_REQUESTED, clear the client id, the credential manager
handle and the slot, and resolve the sign-out promise with null. -/
def signOut (st : ModuleState) (promise : Nat) : List Action × ModuleState :=
  ((match st.pendingPromise with
    | some p => [Action.rejectPromise p ERROR_SIGN_OUT_REQUESTED "Sign-out was requested"]
    | none => []) ++ [Action.clearSlot, Action.resolvePromise promise none],
   { webClientId := none, credentialManager := false, pendingPromise := none })

/-- Android isSignedIn (module lines 489-494): resolves false in every
module state. -/
def isSignedIn (_st : ModuleState) : Bool :=
  false

end GoogleSigninModern

namespace IOSModule

/-- iOS isSignedIn (GoogleSigninModern.mm lines 541-552, the
HAS_GOOGLE_SIGNIN branch): resolves whether GIDSignIn.sharedInstance
currently holds a user. -/
def isSignedIn (currentUser : Option String) : Bool :=
  currentUser.isSome

end IOSModule

namespace JSWrapper

/-- JS GoogleSignIn.signOut (index.tsx lines 245-250): throw when
configure has not succeeded on this wrapper, otherwise await the native
signOut, which always resolves (the ok case). -/
def signOut (isConfigured : Bool) : Except String Unit :=
  if !isConfigured then Except.error "Google Sign-In not configured"
  else Except.ok ()

/-- JS GoogleSignIn.isSignedIn (index.tsx lines 255-260): false while
unconfigured, otherwise the native answer. -/
def isSignedIn (isConfigured : Bool) (nativeAnswer : Bool) : Bool :=
  if !isConfigured then false else nativeAnswer

end JSWrapper

namespace GoogleSigninModern

/-- Recognizer for provider getCredential actions in a trace. -/
def isProviderCall : Action → Bool
  | Action.providerCall _ _ => true
  | _ => false

/-- Provider calls of a trace, in order. -/
def providerCallsOf (acts : List Action) : List Action :=
  acts.filter isProviderCall

/-- Whether a trace rejects some promise with the given error code. -/
def rejectsWithCode (code : String) (acts : List Action) : Bool :=
  acts.any fun a =>
    match a with
    | Action.rejectPromise _ c _ => c == code
    | _ => false

/-- Whether an action settles (resolves or rejects) promise p. -/
def isSettleOf (p : Nat) : Action → Bool
  | Action.resolvePromise q _ => q == p
  | Action.rejectPromise q _ _ => q == p
  | _ => false

/-- Scanning a trace from the start, whether a clearSlot assignment
occurs before the first settlement of promise p (vacuously true when p
is never settled). -/
def clearBeforeSettleB (p : Nat) : List Action → Bool
  | [] => true
  | Action.clearSlot :: _ => true
  | a :: rest => if isSettleOf p a then false else clearBeforeSettleB p rest

/-- Whether the last two actions of a trace are a settlement of promise
p immediately followed by the clearSlot assignment. -/
def endsWithSettleClear (p : Nat) : List Action → Bool
  | [] => false
  | [_] => false
  | [a, b] => isSettleOf p a && (b == Action.clearSlot)
  | _ :: b :: c :: rest => endsWithSettleClear p (b :: c :: rest)

/-- The structured no-credential signal of a provider outcome: a
GetCredentialException whose type is TYPE_NO_CREDENTIAL (the condition
the interactive retry tests). -/
def isNoCredentialFailure (o : ProviderOutcome) : Bool :=
  match o with
  | ProviderOutcome.credError e => e.type == NO_CREDENTIAL_EXCEPTION_TYPE
  | _ => false

theorem providerCallsOf_clear (st : ModuleState) (c m : String) (f : Option Nat) :
    providerCallsOf (clearPendingPromiseWithError st c m f).1 = [] := by
  cases hsp : st.pendingPromise <;>
    cases f <;>
      simp [clearPendingPromiseWithError, providerCallsOf, hsp, isProviderCall]

theorem providerCallsOf_handleNoAccountsError (st : ModuleState) (activity : Bool)
    (e : CredException) :
    providerCallsOf (handleNoAccountsError st activity e).1 = [] := by
  unfold handleNoAccountsError
  split
  · cases hsp : st.pendingPromise <;> cases activity <;>
      simp [clearPendingPromiseWithError, providerCallsOf, hsp, isProviderCall,
        triggerAddGoogleAccountIntent]
  · dsimp only
    split
    · cases hsp : st.pendingPromise <;> cases activity <;>
        simp [clearPendingPromiseWithError, providerCallsOf, hsp, isProviderCall,
          triggerAddGoogleAccountIntent]
    · exact providerCallsOf_clear _ _ _ _

theorem providerCallsOf_handleCredentialSuccess (lib : JwtLib) (st : ModuleState)
    (raw : RawCredential) (flowType : SignInFlowType) (nonce : Option String) :
    providerCallsOf (handleCredentialSuccess lib st raw flowType nonce).1 = [] := by
  unfold handleCredentialSuccess
  rcases raw with g | ⟨t, parsed⟩
  · rcases hr : createResponseForFlowType lib g flowType nonce with msg | r <;>
      simp only [hr]
    · exact providerCallsOf_clear _ _ _ _
    · cases hsp : st.pendingPromise <;>
        simp [hsp, providerCallsOf, isProviderCall]
  · dsimp only
    split
    · rcases parsed with parseMsg | g
      · exact providerCallsOf_clear _ _ _ _
      · rcases hr : createResponseForFlowType lib g flowType nonce with msg | r <;>
          simp only [hr]
        · exact providerCallsOf_clear _ _ _ _
        · cases hsp : st.pendingPromise <;>
            simp [hsp, providerCallsOf, isProviderCall]
    · exact providerCallsOf_clear _ _ _ _

theorem providerCallsOf_handleCredentialException_false (lib : JwtLib)
    (provider : Bool → ProviderOutcome) (activity : Bool) (st : ModuleState)
    (e : CredException) (flowType : SignInFlowType) (nonce : Option String) :
    providerCallsOf
      (handleCredentialException lib provider activity st e false flowType nonce).1 = [] := by
  cases flowType <;> rw [handleCredentialException]
  · rw [dif_neg (by simp)]
    exact providerCallsOf_handleNoAccountsError _ _ _
  · split
    · exact providerCallsOf_clear _ _ _ _
    · exact providerCallsOf_clear _ _ _ _
  · split
    · exact providerCallsOf_clear _ _ _ _
    · exact providerCallsOf_clear _ _ _ _

theorem providerCallsOf_request_false (lib : JwtLib) (provider : Bool → ProviderOutcome)
    (activity : Bool) (st : ModuleState) (flowType : SignInFlowType)
    (nonce : Option String) :
    providerCallsOf (performCredentialRequest lib provider activity st false flowType nonce).1 =
      if activity then [Action.providerCall false nonce] else [] := by
  cases activity
  · rw [performCredentialRequest]
    simp [providerCallsOf]
  · rw [performCredentialRequest]
    simp only [Bool.not_true, Bool.false_eq_true, if_false, if_true, ite_true]
    have hstep : ∀ step : List Action × ModuleState,
        providerCallsOf step.1 = [] →
        providerCallsOf (Action.providerCall false nonce :: step.1) =
          [Action.providerCall false nonce] := by
      intro step hs
      simp [providerCallsOf, isProviderCall] at hs ⊢
      intro a ha
      exact hs a ha
    cases ho : provider false
    · simp only [ho]
      exact hstep _ (providerCallsOf_handleCredentialSuccess _ _ _ _ _)
    · simp only [ho]
      exact hstep _ (providerCallsOf_handleCredentialException_false _ _ _ _ _ _ _)
    · simp only [ho]
      exact hstep _ (providerCallsOf_clear _ _ _ _)

theorem providerCallsOf_performCredentialRequest (lib : JwtLib)
    (provider : Bool → ProviderOutcome) (activity : Bool) (st : ModuleState)
    (filterByAuthorizedAccounts : Bool) (flowType : SignInFlowType)
    (nonce : Option String) :
    providerCallsOf
      (performCredentialRequest lib provider activity st filterByAuthorizedAccounts
        flowType nonce).1 =
      if activity then
        Action.providerCall filterByAuthorizedAccounts nonce ::
          (if filterByAuthorizedAccounts && (flowType == SignInFlowType.INTERACTIVE) &&
              isNoCredentialFailure (provider filterByAuthorizedAccounts)
           then [Action.providerCall false nonce] else [])
      else [] := by
  cases activity
  · rw [performCredentialRequest]
    simp [providerCallsOf]
  · cases filterByAuthorizedAccounts
    · rw [providerCallsOf_request_false]
      simp
    · rw [performCredentialRequest]
      simp only [Bool.not_true, Bool.false_eq_true, if_false, if_true, ite_true]
      have hcons : ∀ step : List Action × ModuleState,
          providerCallsOf (Action.providerCall true nonce :: step.1) =
            Action.providerCall true nonce :: providerCallsOf step.1 := by
        intro step
        simp [providerCallsOf, isProviderCall]
      cases ho : provider true
      case success raw =>
        simp only [ho, hcons, providerCallsOf_handleCredentialSuccess,
          isNoCredentialFailure, Bool.and_false]
        simp
      case credError e =>
        simp only [ho, hcons]
        cases flowType
        case INTERACTIVE =>
          rw [handleCredentialException]
          by_cases hc : (true && e.type == NO_CREDENTIAL_EXCEPTION_TYPE) = true
          · rw [dif_pos hc]
            rw [providerCallsOf_request_false]
            simp only [Bool.true_and] at hc
            simp [isNoCredentialFailure, hc]
          · rw [dif_neg hc]
            rw [providerCallsOf_handleNoAccountsError]
            simp only [Bool.true_and] at hc
            simp [isNoCredentialFailure, Bool.eq_false_iff.mpr hc]
        case SILENT =>
          rw [handleCredentialException]
          split <;> rw [providerCallsOf_clear] <;> simp
        case TOKEN_REFRESH =>
          rw [handleCredentialException]
          split <;> rw [providerCallsOf_clear] <;> simp
      case otherError m =>
        simp only [ho, hcons, providerCallsOf_clear, isNoCredentialFailure]
        simp


theorem endsWithSettleClear_cons (p : Nat) (a : Action) (acts : List Action)
    (h : endsWithSettleClear p acts = true) :
    endsWithSettleClear p (a :: acts) = true := by
  rcases acts with _ | ⟨b, _ | ⟨c, rest⟩⟩
  · simp [endsWithSettleClear] at h
  · simp [endsWithSettleClear] at h
  · simp only [endsWithSettleClear] at h ⊢
    exact h

theorem endsWithSettleClear_clearPending (st : ModuleState) (c m : String)
    (f : Option Nat) (p : Nat) (hsp : st.pendingPromise = some p) :
    endsWithSettleClear p (clearPendingPromiseWithError st c m f).1 = true := by
  simp [clearPendingPromiseWithError, hsp, endsWithSettleClear, isSettleOf]

theorem pending_none_clearPending (st : ModuleState) (c m : String) (f : Option Nat) :
    (clearPendingPromiseWithError st c m f).2.pendingPromise = none := by
  simp [clearPendingPromiseWithError]

theorem endsWithSettleClear_handleNoAccountsError (st : ModuleState) (activity : Bool)
    (e : CredException) (p : Nat) (hsp : st.pendingPromise = some p) :
    endsWithSettleClear p (handleNoAccountsError st activity e).1 = true := by
  unfold handleNoAccountsError
  split
  · cases activity <;>
      simp [clearPendingPromiseWithError, hsp, endsWithSettleClear, isSettleOf,
        triggerAddGoogleAccountIntent]
  · dsimp only
    split
    · cases activity <;>
        simp [clearPendingPromiseWithError, hsp, endsWithSettleClear, isSettleOf,
          triggerAddGoogleAccountIntent]
    · exact endsWithSettleClear_clearPending _ _ _ _ _ hsp

theorem pending_none_handleNoAccountsError (st : ModuleState) (activity : Bool)
    (e : CredException) :
    (handleNoAccountsError st activity e).2.pendingPromise = none := by
  unfold handleNoAccountsError
  split
  · simp [clearPendingPromiseWithError]
  · dsimp only
    split
    · simp [clearPendingPromiseWithError]
    · exact pending_none_clearPending _ _ _ _

theorem endsWithSettleClear_handleCredentialSuccess (lib : JwtLib) (st : ModuleState)
    (raw : RawCredential) (flowType : SignInFlowType) (nonce : Option String)
    (p : Nat) (hsp : st.pendingPromise = some p) :
    endsWithSettleClear p (handleCredentialSuccess lib st raw flowType nonce).1 = true := by
  unfold handleCredentialSuccess
  rcases raw with g | ⟨t, parsed⟩
  · rcases hr : createResponseForFlowType lib g flowType nonce with msg | r <;>
      simp only [hr]
    · exact endsWithSettleClear_clearPending _ _ _ _ _ hsp
    · simp [hsp, endsWithSettleClear, isSettleOf]
  · dsimp only
    split
    · rcases parsed with parseMsg | g
      · exact endsWithSettleClear_clearPending _ _ _ _ _ hsp
      · rcases hr : createResponseForFlowType lib g flowType nonce with msg | r <;>
          simp only [hr]
        · exact endsWithSettleClear_clearPending _ _ _ _ _ hsp
        · simp [hsp, endsWithSettleClear, isSettleOf]
    · exact endsWithSettleClear_clearPending _ _ _ _ _ hsp

theorem pending_none_handleCredentialSuccess (lib : JwtLib) (st : ModuleState)
    (raw : RawCredential) (flowType : SignInFlowType) (nonce : Option String) :
    (handleCredentialSuccess lib st raw flowType nonce).2.pendingPromise = none := by
  unfold handleCredentialSuccess
  rcases raw with g | ⟨t, parsed⟩
  · rcases hr : createResponseForFlowType lib g flowType nonce with msg | r <;>
      simp only [hr]
    exact pending_none_clearPending _ _ _ _
  · dsimp only
    split
    · rcases parsed with parseMsg | g
      · exact pending_none_clearPending _ _ _ _
      · rcases hr : createResponseForFlowType lib g flowType nonce with msg | r <;>
          simp only [hr]
        exact pending_none_clearPending _ _ _ _
    · exact pending_none_clearPending _ _ _ _

theorem endsWithSettleClear_handleCredentialException_false (lib : JwtLib)
    (provider : Bool → ProviderOutcome) (activity : Bool) (st : ModuleState)
    (e : CredException) (flowType : SignInFlowType) (nonce : Option String)
    (p : Nat) (hsp : st.pendingPromise = some p) :
    endsWithSettleClear p
      (handleCredentialException lib provider activity st e false flowType nonce).1 = true := by
  cases flowType <;> rw [handleCredentialException]
  · rw [dif_neg (by simp)]
    exact endsWithSettleClear_handleNoAccountsError _ _ _ _ hsp
  · split
    · exact endsWithSettleClear_clearPending _ _ _ _ _ hsp
    · exact endsWithSettleClear_clearPending _ _ _ _ _ hsp
  · split
    · exact endsWithSettleClear_clearPending _ _ _ _ _ hsp
    · exact endsWithSettleClear_clearPending _ _ _ _ _ hsp

theorem pending_none_handleCredentialException_false (lib : JwtLib)
    (provider : Bool → ProviderOutcome) (activity : Bool) (st : ModuleState)
    (e : CredException) (flowType : SignInFlowType) (nonce : Option String) :
    (handleCredentialException lib provider activity st e false flowType nonce).2.pendingPromise =
      none := by
  cases flowType <;> rw [handleCredentialException]
  · rw [dif_neg (by simp)]
    exact pending_none_handleNoAccountsError _ _ _
  · split
    · exact pending_none_clearPending _ _ _ _
    · exact pending_none_clearPending _ _ _ _
  · split
    · exact pending_none_clearPending _ _ _ _
    · exact pending_none_clearPending _ _ _ _

theorem endsWithSettleClear_request_false (lib : JwtLib)
    (provider : Bool → ProviderOutcome) (st : ModuleState)
    (flowType : SignInFlowType) (nonce : Option String) (p : Nat)
    (hsp : st.pendingPromise = some p) :
    endsWithSettleClear p
      (performCredentialRequest lib provider true st false flowType nonce).1 = true := by
  rw [performCredentialRequest]
  simp only [Bool.not_true, Bool.false_eq_true, if_false, if_true, ite_true]
  cases ho : provider false
  · simp only [ho]
    exact endsWithSettleClear_cons _ _ _
      (endsWithSettleClear_handleCredentialSuccess _ _ _ _ _ _ hsp)
  · simp only [ho]
    exact endsWithSettleClear_cons _ _ _
      (endsWithSettleClear_handleCredentialException_false _ _ _ _ _ _ _ _ hsp)
  · simp only [ho]
    exact endsWithSettleClear_cons _ _ _
      (endsWithSettleClear_clearPending _ _ _ _ _ hsp)

theorem pending_none_request_false (lib : JwtLib)
    (provider : Bool → ProviderOutcome) (st : ModuleState)
    (flowType : SignInFlowType) (nonce : Option String) :
    (performCredentialRequest lib provider true st false flowType nonce).2.pendingPromise =
      none := by
  rw [performCredentialRequest]
  simp only [Bool.not_true, Bool.false_eq_true, if_false, if_true, ite_true]
  cases ho : provider false <;> simp only [ho]
  · exact pending_none_handleCredentialSuccess _ _ _ _ _
  · exact pending_none_handleCredentialException_false _ _ _ _ _ _ _
  · exact pending_none_clearPending _ _ _ _

theorem endsWithSettleClear_request (lib : JwtLib)
    (provider : Bool → ProviderOutcome) (st : ModuleState)
    (filterByAuthorizedAccounts : Bool) (flowType : SignInFlowType)
    (nonce : Option String) (p : Nat) (hsp : st.pendingPromise = some p) :
    endsWithSettleClear p
      (performCredentialRequest lib provider true st filterByAuthorizedAccounts
        flowType nonce).1 = true := by
  cases filterByAuthorizedAccounts
  · exact endsWithSettleClear_request_false _ _ _ _ _ _ hsp
  · rw [performCredentialRequest]
    simp only [Bool.not_true, Bool.false_eq_true, if_false, if_true, ite_true]
    cases ho : provider true
    case success raw =>
      simp only [ho]
      exact endsWithSettleClear_cons _ _ _
        (endsWithSettleClear_handleCredentialSuccess _ _ _ _ _ _ hsp)
    case credError e =>
      simp only [ho]
      cases flowType
      case INTERACTIVE =>
        rw [handleCredentialException]
        by_cases hc : (true && e.type == NO_CREDENTIAL_EXCEPTION_TYPE) = true
        · rw [dif_pos hc]
          exact endsWithSettleClear_cons _ _ _
            (endsWithSettleClear_request_false _ _ _ _ _ _ hsp)
        · rw [dif_neg hc]
          exact endsWithSettleClear_cons _ _ _
            (endsWithSettleClear_handleNoAccountsError _ _ _ _ hsp)
      case SILENT =>
        rw [handleCredentialException]
        split
        · exact endsWithSettleClear_cons _ _ _
            (endsWithSettleClear_clearPending _ _ _ _ _ hsp)
        · exact endsWithSettleClear_cons _ _ _
            (endsWithSettleClear_clearPending _ _ _ _ _ hsp)
      case TOKEN_REFRESH =>
        rw [handleCredentialException]
        split
        · exact endsWithSettleClear_cons _ _ _
            (endsWithSettleClear_clearPending _ _ _ _ _ hsp)
        · exact endsWithSettleClear_cons _ _ _
            (endsWithSettleClear_clearPending _ _ _ _ _ hsp)
    case otherError m =>
      simp only [ho]
      exact endsWithSettleClear_cons _ _ _
        (endsWithSettleClear_clearPending _ _ _ _ _ hsp)

theorem pending_none_request (lib : JwtLib)
    (provider : Bool → ProviderOutcome) (st : ModuleState)
    (filterByAuthorizedAccounts : Bool) (flowType : SignInFlowType)
    (nonce : Option String) :
    (performCredentialRequest lib provider true st filterByAuthorizedAccounts
      flowType nonce).2.pendingPromise = none := by
  cases filterByAuthorizedAccounts
  · exact pending_none_request_false _ _ _ _ _
  · rw [performCredentialRequest]
    simp only [Bool.not_true, Bool.false_eq_true, if_false, if_true, ite_true]
    cases ho : provider true
    case success raw =>
      simp only [ho]
      exact pending_none_handleCredentialSuccess _ _ _ _ _
    case credError e =>
      simp only [ho]
      cases flowType
      case INTERACTIVE =>
        rw [handleCredentialException]
        by_cases hc : (true && e.type == NO_CREDENTIAL_EXCEPTION_TYPE) = true
        · rw [dif_pos hc]
          exact pending_none_request_false _ _ _ _ _
        · rw [dif_neg hc]
          exact pending_none_handleNoAccountsError _ _ _
      case SILENT =>
        rw [handleCredentialException]
        split
        · exact pending_none_clearPending _ _ _ _
        · exact pending_none_clearPending _ _ _ _
      case TOKEN_REFRESH =>
        rw [handleCredentialException]
        split
        · exact pending_none_clearPending _ _ _ _
        · exact pending_none_clearPending _ _ _ _
    case otherError m =>
      simp only [ho]
      exact pending_none_clearPending _ _ _ _

/-- Concrete fixtures for witnesses and counterexamples. -/
def emptyJwtLib : JwtLib := ⟨fun _ => none, fun _ => none⟩

/-- A configured module state with no pending operation. -/
def configuredIdle : ModuleState := ⟨some "w.apps.googleusercontent.com", true, none⟩

/-- A configured module state with promise 7 pending. -/
def configuredBusy : ModuleState := ⟨some "w.apps.googleusercontent.com", true, some 7⟩

/-- An unconfigured module state with promise 7 pending. -/
def unconfiguredBusy : ModuleState := ⟨none, false, some 7⟩

/-- The structured no-credential exception. -/
def noCredException : CredException :=
  ⟨NO_CREDENTIAL_EXCEPTION_TYPE, some "No credentials available", true⟩

/-- A provider with no credential for any filter. -/
def provAlwaysNoCred : Bool → ProviderOutcome := fun _ =>
  ProviderOutcome.credError noCredException

/-- A sample credential whose token has three dot-separated segments. -/
def sampleCred : GoogleCred := ⟨"HEAD.PAY.SIG", "user at example", none, none⟩

/-- A provider failing the authorized-accounts request with the
structured no-credential signal and succeeding on the relaxed one. -/
def provRetrySuccess : Bool → ProviderOutcome := fun filterByAuthorizedAccounts =>
  if filterByAuthorizedAccounts then ProviderOutcome.credError noCredException
  else ProviderOutcome.success (RawCredential.googleIdInstance sampleCred)

/-- C1 (amended).  For every configured orchestrator instance with a
current activity, invoking signIn, signInSilently, or getTokens while a
PendingOperation exists (the nonce, when supplied, being well-formed)
rejects the new request synchronously with SIGN_IN_IN_PROGRESS, issues
no provider call, does not queue the request, and leaves the state, the
existing PendingOperation included, unchanged.  (As stated the claim is
falsified when no activity is present or the nonce is malformed: those
guards run first and win, see the counterexample.) -/
theorem C1_pending_rejects_in_progress (lib : JwtLib)
    (provider : Bool → ProviderOutcome) (st : ModuleState) (promise q : Nat)
    (nonce : Option String) (w : String)
    (hw : st.webClientId = some w) (hc : st.credentialManager = true)
    (hq : st.pendingPromise = some q)
    (hn : ∀ n, nonce = some n → validateNonce n = Except.ok n) :
    signIn lib provider true st promise nonce =
      ([Action.rejectPromise promise ERROR_SIGN_IN_IN_PROGRESS
          "Sign-in already in progress"], st) ∧
    signInSilently lib provider true st promise nonce =
      ([Action.rejectPromise promise ERROR_SIGN_IN_IN_PROGRESS
          "Sign-in already in progress"], st) ∧
    getTokens lib provider true st promise =
      ([Action.rejectPromise promise ERROR_SIGN_IN_IN_PROGRESS
          "Sign-in already in progress"], st) := by
  have hperf : ∀ flowType n, performSignIn lib provider true st promise flowType n =
      ([Action.rejectPromise promise ERROR_SIGN_IN_IN_PROGRESS
          "Sign-in already in progress"], st) := by
    intro flowType n
    unfold performSignIn
    simp [hw, hc, hq]
  refine ⟨?_, ?_, hperf _ _⟩
  · cases hn0 : nonce with
    | none => simpa [signIn] using hperf _ _
    | some n => simp [signIn, hn n hn0, hperf]
  · cases hn0 : nonce with
    | none => simpa [signInSilently] using hperf _ _
    | some n => simp [signInSilently, hn n hn0, hperf]

/-- Witness for C1: the guard fires on a concrete configured busy state. -/
theorem C1_pending_rejects_in_progress_witness :
    signIn emptyJwtLib provAlwaysNoCred true configuredBusy 8 none =
      ([Action.rejectPromise 8 ERROR_SIGN_IN_IN_PROGRESS
          "Sign-in already in progress"], configuredBusy) ∧
    signInSilently emptyJwtLib provAlwaysNoCred true configuredBusy 8 none =
      ([Action.rejectPromise 8 ERROR_SIGN_IN_IN_PROGRESS
          "Sign-in already in progress"], configuredBusy) ∧
    getTokens emptyJwtLib provAlwaysNoCred true configuredBusy 8 =
      ([Action.rejectPromise 8 ERROR_SIGN_IN_IN_PROGRESS
          "Sign-in already in progress"], configuredBusy) :=
  C1_pending_rejects_in_progress emptyJwtLib provAlwaysNoCred configuredBusy 8 7 none
    "w.apps.googleusercontent.com" rfl rfl rfl (fun n hn => by cases hn)

/-- Counterexample to C1 as stated: on a configured instance with a
pending operation but no current activity, getTokens rejects with
NO_ACTIVITY, not SIGN_IN_IN_PROGRESS (the activity guard runs before
the pending-operation guard). -/
theorem C1_counterexample :
    configuredBusy.webClientId = some "w.apps.googleusercontent.com" ∧
    configuredBusy.pendingPromise = some 7 ∧
    (getTokens emptyJwtLib provAlwaysNoCred false configuredBusy 8).1 =
      [Action.rejectPromise 8 ERROR_NO_ACTIVITY "No current activity found"] ∧
    rejectsWithCode ERROR_SIGN_IN_IN_PROGRESS
      (getTokens emptyJwtLib provAlwaysNoCred false configuredBusy 8).1 = false := by
  refine ⟨rfl, rfl, ?_, ?_⟩ <;>
    simp [getTokens, performSignIn, configuredBusy, rejectsWithCode,
      ERROR_NO_ACTIVITY, ERROR_SIGN_IN_IN_PROGRESS]

/-- C10.  On Android, signIn and signInSilently validate a supplied
nonce before any of the configured / activity / operation-in-progress
guards: a malformed nonce rejects with NONCE_ERROR in every module
state (unconfigured or busy included), with no provider call, and
leaves the whole state, the pending slot included, unchanged. -/
theorem C10_nonce_validated_first (lib : JwtLib)
    (provider : Bool → ProviderOutcome) (activity : Bool) (st : ModuleState)
    (promise : Nat) (n msg : String)
    (hbad : validateNonce n = Except.error msg) :
    signIn lib provider activity st promise (some n) =
      ([Action.rejectPromise promise ERROR_NONCE_ERROR ("Invalid nonce: " ++ msg)], st) ∧
    signInSilently lib provider activity st promise (some n) =
      ([Action.rejectPromise promise ERROR_NONCE_ERROR ("Invalid nonce: " ++ msg)], st) := by
  constructor <;> simp [signIn, signInSilently, hbad]

/-- Witness for C10 on a short nonce, in an unconfigured busy state and
in a configured busy state. -/
theorem C10_nonce_validated_first_witness :
    signIn emptyJwtLib provAlwaysNoCred true unconfiguredBusy 8 (some "abc") =
      ([Action.rejectPromise 8 ERROR_NONCE_ERROR
          "Invalid nonce: Nonce must be at least 32 characters long for security"],
       unconfiguredBusy) ∧
    signInSilently emptyJwtLib provAlwaysNoCred true configuredBusy 8 (some "abc") =
      ([Action.rejectPromise 8 ERROR_NONCE_ERROR
          "Invalid nonce: Nonce must be at least 32 characters long for security"],
       configuredBusy) := by
  have h1 := C10_nonce_validated_first emptyJwtLib provAlwaysNoCred true unconfiguredBusy 8
    "abc" "Nonce must be at least 32 characters long for security" (by decide)
  have h2 := C10_nonce_validated_first emptyJwtLib provAlwaysNoCred true configuredBusy 8
    "abc" "Nonce must be at least 32 characters long for security" (by decide)
  exact ⟨h1.1, h2.2⟩

/-- C7 (amended).  The Android module resolves isSignedIn with false in
every state, and the JS wrapper answers false while unconfigured; the
iOS implementation however resolves with whether the platform provider
currently holds a user, which can be true.  (As stated, false-
unconditionally fails on iOS, see the counterexample.) -/
theorem C7_isSignedIn_by_platform (st : ModuleState) (currentUser : Option String)
    (nativeAnswer : Bool) :
    isSignedIn st = false ∧
    JSWrapper.isSignedIn false nativeAnswer = false ∧
    IOSModule.isSignedIn currentUser = currentUser.isSome :=
  ⟨rfl, rfl, rfl⟩

/-- Witness for C7 at concrete states. -/
theorem C7_isSignedIn_by_platform_witness :
    isSignedIn configuredBusy = false ∧
    JSWrapper.isSignedIn false true = false ∧
    IOSModule.isSignedIn (none : Option String) = false :=
  ⟨(C7_isSignedIn_by_platform configuredBusy none true).1,
   (C7_isSignedIn_by_platform configuredBusy none true).2.1,
   ((C7_isSignedIn_by_platform configuredBusy (none : Option String) true).2.2).trans rfl⟩

/-- Counterexample to C7 as stated: the iOS isSignedIn resolves true
when the provider holds a current user. -/
theorem C7_counterexample : IOSModule.isSignedIn (some "alice") = true := rfl

/-- C8 (amended).  The native signOut is idempotent in every module
state: it rejects a pending promise (when one exists) with
SIGN_OUT_REQUESTED, rejects nothing otherwise, clears the
configuration, the provider handle and the pending slot, and resolves
its own promise with null - an unconfigured state included.  The public
JS wrapper, however, throws before reaching the native module when
configure has not succeeded (see the counterexample); once configured
it delegates and resolves. -/
theorem C8_signOut_idempotent (st : ModuleState) (promise : Nat) :
    (signOut st promise).2 = ⟨none, false, none⟩ ∧
    Action.resolvePromise promise none ∈ (signOut st promise).1 ∧
    (∀ p, st.pendingPromise = some p →
      Action.rejectPromise p ERROR_SIGN_OUT_REQUESTED "Sign-out was requested" ∈
        (signOut st promise).1) ∧
    (st.pendingPromise = none →
      ∀ p c m, Action.rejectPromise p c m ∉ (signOut st promise).1) ∧
    JSWrapper.signOut true = Except.ok () := by
  refine ⟨rfl, ?_, ?_, ?_, rfl⟩
  · unfold signOut
    cases hsp : st.pendingPromise <;> simp
  · intro p hp
    unfold signOut
    rw [hp]
    simp
  · intro hp p c m
    unfold signOut
    rw [hp]
    simp

/-- Witness for C8 on a busy state and promise 9. -/
theorem C8_signOut_idempotent_witness :
    (signOut configuredBusy 9).2 = ⟨none, false, none⟩ ∧
    Action.resolvePromise 9 none ∈ (signOut configuredBusy 9).1 ∧
    Action.rejectPromise 7 ERROR_SIGN_OUT_REQUESTED "Sign-out was requested" ∈
      (signOut configuredBusy 9).1 ∧
    JSWrapper.signOut true = Except.ok () := by
  have h := C8_signOut_idempotent configuredBusy 9
  exact ⟨h.1, h.2.1, h.2.2.1 7 rfl, h.2.2.2.2⟩

/-- Counterexample to C8 as stated: the public signOut does not resolve
successfully when nothing was configured - the JS wrapper throws. -/
theorem C8_counterexample :
    JSWrapper.signOut false = Except.error "Google Sign-In not configured" := rfl

/-- C9 (amended).  Every operation that installs the PendingOperation
and reaches a terminal state settles the installed promise and then
immediately clears the slot: the completion callback is invoked first
and the slot-clearing assignment follows as the next action of the same
synchronous step, leaving the final state with no pending operation.
(As stated - slot cleared before the callback - the claim has the order
backwards, see the counterexample.) -/
theorem C9_settle_then_clear (lib : JwtLib) (provider : Bool → ProviderOutcome)
    (st : ModuleState) (promise : Nat) (flowType : SignInFlowType)
    (nonce : Option String) (w : String)
    (hw : st.webClientId = some w) (hc : st.credentialManager = true)
    (hp : st.pendingPromise = none) :
    endsWithSettleClear promise
      (performSignIn lib provider true st promise flowType nonce).1 = true ∧
    (performSignIn lib provider true st promise flowType nonce).2.pendingPromise = none := by
  have hguard : performSignIn lib provider true st promise flowType nonce =
      performCredentialRequest lib provider true
        { st with pendingPromise := some promise } true flowType nonce := by
    unfold performSignIn
    simp [hw, hc, hp]
  rw [hguard]
  exact ⟨endsWithSettleClear_request _ _ _ _ _ _ _ rfl,
    pending_none_request _ _ _ _ _ _⟩

/-- Witness for C9 on a concrete silent run. -/
theorem C9_settle_then_clear_witness :
    endsWithSettleClear 3
      (performSignIn emptyJwtLib provAlwaysNoCred true configuredIdle 3
        SignInFlowType.SILENT none).1 = true ∧
    (performSignIn emptyJwtLib provAlwaysNoCred true configuredIdle 3
      SignInFlowType.SILENT none).2.pendingPromise = none :=
  C9_settle_then_clear emptyJwtLib provAlwaysNoCred configuredIdle 3
    SignInFlowType.SILENT none "w.apps.googleusercontent.com" rfl rfl rfl

/-- Counterexample to C9 as stated: in this terminal silent run the
rejection of the pending promise happens strictly before the
slot-clearing assignment, so the slot is not cleared before the
callback is invoked. -/
theorem C9_counterexample :
    (signInSilently emptyJwtLib provAlwaysNoCred true configuredIdle 3 none).1 =
      [Action.providerCall true none,
       Action.rejectPromise 3 "SIGN_IN_REQUIRED"
         "The user has never signed in before, or they have since signed out.",
       Action.clearSlot] ∧
    clearBeforeSettleB 3
      (signInSilently emptyJwtLib provAlwaysNoCred true configuredIdle 3 none).1 = false := by
  have h : (signInSilently emptyJwtLib provAlwaysNoCred true configuredIdle 3 none).1 =
      [Action.providerCall true none,
       Action.rejectPromise 3 "SIGN_IN_REQUIRED"
         "The user has never signed in before, or they have since signed out.",
       Action.clearSlot] := by
    simp [signInSilently, performSignIn, performCredentialRequest,
      handleCredentialException, clearPendingPromiseWithError, configuredIdle,
      provAlwaysNoCred, noCredException]
  refine ⟨h, ?_⟩
  rw [h]
  rfl

/-- C2.  For every Interactive sign-in that passes the synchronous
guards, the orchestrator issues the authorized-accounts provider call;
it issues exactly one further call, with the filter relaxed to all
accounts, precisely when that first call fails with the structured
no-credential signal - and never a third call.  Every run ends settled
(no retry loop): the pending slot is empty afterwards. -/
theorem C2_interactive_two_phase (lib : JwtLib) (provider : Bool → ProviderOutcome)
    (st : ModuleState) (promise : Nat) (nonce : Option String) (w : String)
    (hw : st.webClientId = some w) (hc : st.credentialManager = true)
    (hp : st.pendingPromise = none) :
    providerCallsOf
      (performSignIn lib provider true st promise SignInFlowType.INTERACTIVE nonce).1 =
      (if isNoCredentialFailure (provider true)
       then [Action.providerCall true nonce, Action.providerCall false nonce]
       else [Action.providerCall true nonce]) ∧
    (performSignIn lib provider true st promise
      SignInFlowType.INTERACTIVE nonce).2.pendingPromise = none := by
  have hguard : performSignIn lib provider true st promise SignInFlowType.INTERACTIVE nonce =
      performCredentialRequest lib provider true
        { st with pendingPromise := some promise } true SignInFlowType.INTERACTIVE nonce := by
    unfold performSignIn
    simp [hw, hc, hp]
  rw [hguard]
  refine ⟨?_, pending_none_request _ _ _ _ _ _⟩
  rw [providerCallsOf_performCredentialRequest]
  by_cases hnc : isNoCredentialFailure (provider true) = true
  · simp [hnc]
  · simp [Bool.eq_false_iff.mpr hnc]

/-- Witness for C2: a first-call no-credential failure followed by a
successful relaxed call yields exactly the two provider calls. -/
theorem C2_interactive_two_phase_witness :
    providerCallsOf
      (performSignIn emptyJwtLib provRetrySuccess true configuredIdle 4
        SignInFlowType.INTERACTIVE none).1 =
      [Action.providerCall true none, Action.providerCall false none] ∧
    (performSignIn emptyJwtLib provRetrySuccess true configuredIdle 4
      SignInFlowType.INTERACTIVE none).2.pendingPromise = none := by
  have h := C2_interactive_two_phase emptyJwtLib provRetrySuccess configuredIdle 4 none
    "w.apps.googleusercontent.com" rfl rfl rfl
  refine ⟨?_, h.2⟩
  have hnc : isNoCredentialFailure (provRetrySuccess true) = true := by decide
  rw [h.1, if_pos hnc]

/-- Helper for C3: a non-interactive flow issues at most one provider
call, whatever the state and outcome. -/
theorem providerCalls_length_performSignIn (lib : JwtLib)
    (provider : Bool → ProviderOutcome) (activity : Bool) (st : ModuleState)
    (promise : Nat) (flowType : SignInFlowType) (nonce : Option String)
    (hflow : flowType ≠ SignInFlowType.INTERACTIVE) :
    (providerCallsOf
      (performSignIn lib provider activity st promise flowType nonce).1).length ≤ 1 := by
  have hfi : (flowType == SignInFlowType.INTERACTIVE) = false := by
    cases flowType <;> simp_all
  unfold performSignIn
  split
  · simp [providerCallsOf, isProviderCall]
  split
  · simp [providerCallsOf, isProviderCall]
  split
  · simp [providerCallsOf, isProviderCall]
  split
  · simp [providerCallsOf, isProviderCall]
  rw [providerCallsOf_performCredentialRequest]
  cases activity
  · simp
  · simp [hfi]

/-- C3.  Silent and TokenRefresh invocations call the provider at most
once in every state and outcome; the no-credential provider signal is
classified flow-dependently - SIGN_IN_REQUIRED for the Silent flow,
NO_USER for TokenRefresh - and these codes are distinct from each other
and from NO_GOOGLE_ACCOUNTS, the Interactive flow terminal failure code
for that signal. -/
theorem C3_single_shot_classification (lib : JwtLib)
    (provider : Bool → ProviderOutcome) (activity : Bool) (st : ModuleState)
    (promise : Nat) (nonce : Option String) (flowType : SignInFlowType)
    (hf : flowType = SignInFlowType.SILENT ∨ flowType = SignInFlowType.TOKEN_REFRESH) :
    (providerCallsOf
      (performSignIn lib provider activity st promise flowType nonce).1).length ≤ 1 ∧
    (∀ w e, st.webClientId = some w → st.credentialManager = true →
      st.pendingPromise = none →
      provider true = ProviderOutcome.credError e →
      (e.type == NO_CREDENTIAL_EXCEPTION_TYPE || e.isNoCredentialException) = true →
      (performSignIn lib provider true st promise flowType nonce).1 =
        [Action.providerCall true nonce,
         Action.rejectPromise promise
           (if flowType = SignInFlowType.SILENT then "SIGN_IN_REQUIRED" else ERROR_NO_USER)
           (if flowType = SignInFlowType.SILENT
            then "The user has never signed in before, or they have since signed out."
            else "No user signed in. Please sign in first."),
         Action.clearSlot]) ∧
    ("SIGN_IN_REQUIRED" ≠ ERROR_NO_GOOGLE_ACCOUNTS ∧
     ERROR_NO_USER ≠ ERROR_NO_GOOGLE_ACCOUNTS ∧
     ("SIGN_IN_REQUIRED" : String) ≠ ERROR_NO_USER) := by
  refine ⟨?_, ?_, by decide, by decide, by decide⟩
  · refine providerCalls_length_performSignIn _ _ _ _ _ _ _ ?_
    rcases hf with hf | hf <;> subst hf <;> simp
  · intro w e hw hc hp hpe hrec
    have hguard : performSignIn lib provider true st promise flowType nonce =
        performCredentialRequest lib provider true
          { st with pendingPromise := some promise } true flowType nonce := by
      unfold performSignIn
      simp [hw, hc, hp]
    rw [hguard, performCredentialRequest]
    rcases hf with hf | hf <;> subst hf <;>
      simp [hpe, handleCredentialException, hrec, clearPendingPromiseWithError]

/-- Witness for C3 on concrete silent and token-refresh runs. -/
theorem C3_single_shot_classification_witness :
    (providerCallsOf
      (performSignIn emptyJwtLib provAlwaysNoCred true configuredIdle 3
        SignInFlowType.SILENT none).1).length ≤ 1 ∧
    (performSignIn emptyJwtLib provAlwaysNoCred true configuredIdle 3
      SignInFlowType.SILENT none).1 =
      [Action.providerCall true none,
       Action.rejectPromise 3 "SIGN_IN_REQUIRED"
         "The user has never signed in before, or they have since signed out.",
       Action.clearSlot] ∧
    (performSignIn emptyJwtLib provAlwaysNoCred true configuredIdle 3
      SignInFlowType.TOKEN_REFRESH none).1 =
      [Action.providerCall true none,
       Action.rejectPromise 3 ERROR_NO_USER "No user signed in. Please sign in first.",
       Action.clearSlot] := by
  have hs := C3_single_shot_classification emptyJwtLib provAlwaysNoCred true configuredIdle 3
    none SignInFlowType.SILENT (Or.inl rfl)
  have ht := C3_single_shot_classification emptyJwtLib provAlwaysNoCred true configuredIdle 3
    none SignInFlowType.TOKEN_REFRESH (Or.inr rfl)
  refine ⟨hs.1, ?_, ?_⟩
  · have h := hs.2.1 "w.apps.googleusercontent.com" noCredException rfl rfl rfl rfl (by decide)
    simpa using h
  · have h := ht.2.1 "w.apps.googleusercontent.com" noCredException rfl rfl rfl rfl (by decide)
    simpa using h

/-- C5 (amended).  An Interactive sign-in that terminally fails because
no accounts are present - recognized on the final exception first by
the structured no-credential type or subclass, otherwise by
case-insensitive substring matching on the message - fires the
best-effort add-account intent strictly before rejecting, and the
rejection carries the code NO_GOOGLE_ACCOUNTS.  (The claim names the
taxonomy code NO_ACCOUNTS_AVAILABLE; the code the caller observes is
NO_GOOGLE_ACCOUNTS, see the counterexample.) -/
theorem C5_no_accounts_flow (lib : JwtLib) (provider : Bool → ProviderOutcome)
    (st : ModuleState) (promise : Nat) (nonce : Option String) (w : String)
    (e1 e2 : CredException)
    (hw : st.webClientId = some w) (hc : st.credentialManager = true)
    (hp : st.pendingPromise = none)
    (h1 : provider true = ProviderOutcome.credError e1)
    (h1t : e1.type = NO_CREDENTIAL_EXCEPTION_TYPE)
    (h2 : provider false = ProviderOutcome.credError e2)
    (h2rec : (e2.type == NO_CREDENTIAL_EXCEPTION_TYPE || e2.isNoCredentialException) = true ∨
      (containsChars "no credentials available".data
         (lowerAscii (e2.message.getD "")).data ||
       containsChars "no accounts".data (lowerAscii (e2.message.getD "")).data) = true) :
    (performSignIn lib provider true st promise SignInFlowType.INTERACTIVE nonce).1 =
      [Action.providerCall true nonce, Action.providerCall false nonce,
       Action.addAccountIntent,
       Action.rejectPromise promise ERROR_NO_GOOGLE_ACCOUNTS
         "Please add a Google account to continue. The account settings have been opened for you.",
       Action.clearSlot] := by
  have hguard : performSignIn lib provider true st promise SignInFlowType.INTERACTIVE nonce =
      performCredentialRequest lib provider true
        { st with pendingPromise := some promise } true SignInFlowType.INTERACTIVE nonce := by
    unfold performSignIn
    simp [hw, hc, hp]
  rw [hguard]
  by_cases hstruct : (e2.type == NO_CREDENTIAL_EXCEPTION_TYPE || e2.isNoCredentialException) = true
  · simp [performCredentialRequest, handleCredentialException, handleNoAccountsError,
      triggerAddGoogleAccountIntent, clearPendingPromiseWithError, h1, h2, h1t, hstruct]
  · have hmsg : (containsChars "no credentials available".data
        (lowerAscii (e2.message.getD "")).data ||
      containsChars "no accounts".data (lowerAscii (e2.message.getD "")).data) = true := by
      rcases h2rec with hr | hr
      · exact absurd hr hstruct
      · exact hr
    simp [performCredentialRequest, handleCredentialException, handleNoAccountsError,
      triggerAddGoogleAccountIntent, clearPendingPromiseWithError, h1, h2, h1t,
      Bool.eq_false_iff.mpr hstruct, hmsg]

/-- Witness for C5: a concrete interactive run in which both provider
calls fail with the structured no-credential exception. -/
theorem C5_no_accounts_flow_witness :
    (performSignIn emptyJwtLib provAlwaysNoCred true configuredIdle 4
      SignInFlowType.INTERACTIVE none).1 =
      [Action.providerCall true none, Action.providerCall false none,
       Action.addAccountIntent,
       Action.rejectPromise 4 ERROR_NO_GOOGLE_ACCOUNTS
         "Please add a Google account to continue. The account settings have been opened for you.",
       Action.clearSlot] :=
  C5_no_accounts_flow emptyJwtLib provAlwaysNoCred configuredIdle 4 none
    "w.apps.googleusercontent.com" noCredException noCredException rfl rfl rfl rfl rfl rfl
    (Or.inl (by decide))

/-- Counterexample to C5 as stated: in the terminal no-accounts run the
rejection code is NO_GOOGLE_ACCOUNTS; no rejection with code
NO_ACCOUNTS_AVAILABLE occurs (the add-account intent does fire before
the rejection). -/
theorem C5_counterexample :
    (signIn emptyJwtLib provAlwaysNoCred true configuredIdle 4 none).1 =
      [Action.providerCall true none, Action.providerCall false none,
       Action.addAccountIntent,
       Action.rejectPromise 4 ERROR_NO_GOOGLE_ACCOUNTS
         "Please add a Google account to continue. The account settings have been opened for you.",
       Action.clearSlot] ∧
    rejectsWithCode "NO_ACCOUNTS_AVAILABLE"
      (signIn emptyJwtLib provAlwaysNoCred true configuredIdle 4 none).1 = false ∧
    rejectsWithCode ERROR_NO_GOOGLE_ACCOUNTS
      (signIn emptyJwtLib provAlwaysNoCred true configuredIdle 4 none).1 = true ∧
    Action.addAccountIntent ∈
      (signIn emptyJwtLib provAlwaysNoCred true configuredIdle 4 none).1 := by
  have h : (signIn emptyJwtLib provAlwaysNoCred true configuredIdle 4 none).1 =
      [Action.providerCall true none, Action.providerCall false none,
       Action.addAccountIntent,
       Action.rejectPromise 4 ERROR_NO_GOOGLE_ACCOUNTS
         "Please add a Google account to continue. The account settings have been opened for you.",
       Action.clearSlot] := by
    simp [signIn, performSignIn, performCredentialRequest, handleCredentialException,
      handleNoAccountsError, triggerAddGoogleAccountIntent, clearPendingPromiseWithError,
      configuredIdle, provAlwaysNoCred, noCredException]
  refine ⟨h, ?_, ?_, ?_⟩ <;> rw [h]
  · rfl
  · rfl
  · simp

/-- A JWT collaborator for the binding fixtures: the PAY segment
decodes to PAYLOAD, which parses to a claims map whose nonce claim is
thirty-two times B. -/
def bindJwtLib : JwtLib :=
  ⟨fun s => if s == "PAY" then some "PAYLOAD" else none,
   fun s => if s == "PAYLOAD" then some [("nonce", String.mk (List.replicate 32 'B'))]
     else none⟩

/-- A well-formed request nonce of thirty-two times A (which does not
match the token nonce of the binding fixtures). -/
def nonceA : String := String.mk (List.replicate 32 'A')

/-- A provider returning sampleCred as a direct GoogleIdTokenCredential
instance. -/
def provInstanceCred : Bool → ProviderOutcome := fun _ =>
  ProviderOutcome.success (RawCredential.googleIdInstance sampleCred)

/-- A provider returning sampleCred as a raw credential matched by type
string and parsed via createFrom. -/
def provTypedCred : Bool → ProviderOutcome := fun _ =>
  ProviderOutcome.success
    (RawCredential.other GOOGLE_ID_TOKEN_CREDENTIAL_TYPE (Except.ok sampleCred))

/-- C6 (amended).  validateNonceInIdToken succeeds exactly when the
token has a second dot-delimited segment that decodes and parses and
whose nonce claim equals the supplied nonce; when a nonce was supplied
and the binding check fails (decode failure, parse failure, or
mismatch alike), the in-flight operation aborts at once - one provider
call, no fallback retry.  The abort carries the dedicated binding code
NONCE_VALIDATION_ERROR (distinct from the format code NONCE_ERROR)
when the credential is a direct GoogleIdTokenCredential instance; when
the credential arrived as a raw typed credential, the SecurityException
is swallowed by the createFrom catch and the abort carries
CREDENTIAL_PARSE_ERROR instead (see the counterexample). -/
theorem C6_nonce_binding :
    (∀ lib idToken n, validateNonceInIdToken lib idToken n = true ↔
      (2 ≤ (splitOnDot idToken).length ∧
       ∃ payload claims,
         lib.decodePayload ((splitOnDot idToken).getD 1 "") = some payload ∧
         lib.parseClaims payload = some claims ∧
         claims.lookup "nonce" = some n)) ∧
    (∀ lib provider st promise n g w,
      st.webClientId = some w → st.credentialManager = true →
      st.pendingPromise = none →
      provider true = ProviderOutcome.success (RawCredential.googleIdInstance g) →
      validateNonceInIdToken lib g.idToken n = false →
      (performSignIn lib provider true st promise SignInFlowType.INTERACTIVE (some n)).1 =
        [Action.providerCall true (some n),
         Action.rejectPromise promise ERROR_NONCE_VALIDATION_ERROR
           "Nonce validation failed: Nonce validation failed: ID token nonce doesn\x27t match request nonce",
         Action.clearSlot]) ∧
    (∀ lib provider st promise n g w,
      st.webClientId = some w → st.credentialManager = true →
      st.pendingPromise = none →
      provider true = ProviderOutcome.success
        (RawCredential.other GOOGLE_ID_TOKEN_CREDENTIAL_TYPE (Except.ok g)) →
      validateNonceInIdToken lib g.idToken n = false →
      (performSignIn lib provider true st promise SignInFlowType.INTERACTIVE (some n)).1 =
        [Action.providerCall true (some n),
         Action.rejectPromise promise ERROR_CREDENTIAL_PARSE_ERROR
           "Failed to parse Google credential: Nonce validation failed: ID token nonce doesn\x27t match request nonce",
         Action.clearSlot]) ∧
    ERROR_NONCE_VALIDATION_ERROR ≠ ERROR_NONCE_ERROR := by
  refine ⟨?_, ?_, ?_, by decide⟩
  · intro lib idToken n
    unfold validateNonceInIdToken
    by_cases hlen : 2 ≤ (splitOnDot idToken).length
    · rw [if_pos hlen]
      rcases hd : lib.decodePayload ((splitOnDot idToken).getD 1 "") with _ | payload
      · simp [hd, hlen]
      · rcases hp : lib.parseClaims payload with _ | claims
        · simp [hd, hp, hlen]
        · rcases hl : claims.lookup "nonce" with _ | tokenNonce
          · simp [hd, hp, hl, hlen]
          · simp [hd, hp, hl, hlen]
    · rw [if_neg hlen]
      simp [hlen]
  · intro lib provider st promise n g w hw hc hp hpe hval
    have hguard : performSignIn lib provider true st promise
        SignInFlowType.INTERACTIVE (some n) =
        performCredentialRequest lib provider true
          { st with pendingPromise := some promise } true
          SignInFlowType.INTERACTIVE (some n) := by
      unfold performSignIn
      simp [hw, hc, hp]
    rw [hguard]
    simp [performCredentialRequest, handleCredentialSuccess, createResponseForFlowType,
      createSignInResponse, clearPendingPromiseWithError, hpe, hval]
  · intro lib provider st promise n g w hw hc hp hpe hval
    have hguard : performSignIn lib provider true st promise
        SignInFlowType.INTERACTIVE (some n) =
        performCredentialRequest lib provider true
          { st with pendingPromise := some promise } true
          SignInFlowType.INTERACTIVE (some n) := by
      unfold performSignIn
      simp [hw, hc, hp]
    rw [hguard]
    simp [performCredentialRequest, handleCredentialSuccess, createResponseForFlowType,
      createSignInResponse, clearPendingPromiseWithError, hpe, hval]

/-- Witness for C6: the mismatch fixture aborts the instance-credential
run with NONCE_VALIDATION_ERROR, and the binding predicate accepts the
matching nonce. -/
theorem C6_nonce_binding_witness :
    validateNonceInIdToken bindJwtLib sampleCred.idToken nonceA = false ∧
    (validateNonceInIdToken bindJwtLib sampleCred.idToken
      (String.mk (List.replicate 32 'B')) = true) ∧
    (performSignIn bindJwtLib provInstanceCred true configuredIdle 5
      SignInFlowType.INTERACTIVE (some nonceA)).1 =
      [Action.providerCall true (some nonceA),
       Action.rejectPromise 5 ERROR_NONCE_VALIDATION_ERROR
         "Nonce validation failed: Nonce validation failed: ID token nonce doesn\x27t match request nonce",
       Action.clearSlot] := by
  refine ⟨by decide, ?_, ?_⟩
  · rw [(C6_nonce_binding.1 bindJwtLib sampleCred.idToken (String.mk (List.replicate 32 'B')))]
    refine ⟨by decide, "PAYLOAD", [("nonce", String.mk (List.replicate 32 'B'))], by decide,
      by decide, by decide⟩
  · exact C6_nonce_binding.2.1 bindJwtLib provInstanceCred configuredIdle 5 nonceA sampleCred
      "w.apps.googleusercontent.com" rfl rfl rfl rfl (by decide)

/-- Counterexample to C6 as stated: a nonce-binding mismatch on a
credential that arrived as a raw typed credential aborts with
CREDENTIAL_PARSE_ERROR - no rejection with the dedicated binding code
NONCE_VALIDATION_ERROR occurs. -/
theorem C6_counterexample :
    validateNonceInIdToken bindJwtLib sampleCred.idToken nonceA = false ∧
    (signIn bindJwtLib provTypedCred true configuredIdle 5 (some nonceA)).1 =
      [Action.providerCall true (some nonceA),
       Action.rejectPromise 5 ERROR_CREDENTIAL_PARSE_ERROR
         "Failed to parse Google credential: Nonce validation failed: ID token nonce doesn\x27t match request nonce",
       Action.clearSlot] ∧
    rejectsWithCode ERROR_NONCE_VALIDATION_ERROR
      (signIn bindJwtLib provTypedCred true configuredIdle 5 (some nonceA)).1 = false := by
  have hval : validateNonceInIdToken bindJwtLib sampleCred.idToken nonceA = false := by decide
  have h : (signIn bindJwtLib provTypedCred true configuredIdle 5 (some nonceA)).1 =
      [Action.providerCall true (some nonceA),
       Action.rejectPromise 5 ERROR_CREDENTIAL_PARSE_ERROR
         "Failed to parse Google credential: Nonce validation failed: ID token nonce doesn\x27t match request nonce",
       Action.clearSlot] := by
    have hn : validateNonce nonceA = Except.ok nonceA := by decide
    simp [signIn, hn, performSignIn, configuredIdle, performCredentialRequest,
      handleCredentialSuccess, provTypedCred, createResponseForFlowType,
      createSignInResponse, clearPendingPromiseWithError, hval]
  refine ⟨hval, h, ?_⟩
  rw [h]
  rfl

theorem urlSafeChar_not_whitespace (c : Char) (h : isUrlSafeChar c = true) :
    c.isWhitespace = false := by
  cases hw : c.isWhitespace
  · rfl
  · exfalso
    simp [Char.isWhitespace] at hw
    rcases hw with ((h1 | h1) | h1) | h1 <;> subst h1 <;> exact absurd h (by decide)

theorem not_blank_of_urlSafe (l : List Char) (hne : l ≠ [])
    (hchars : l.all isUrlSafeChar = true) :
    isBlankStr (String.mk l) = false := by
  rcases l with _ | ⟨c, rest⟩
  · exact absurd rfl hne
  · have hc : isUrlSafeChar c = true := by
      simp only [List.all_cons, Bool.and_eq_true] at hchars
      exact hchars.1
    show (c :: rest).all Char.isWhitespace = false
    simp [urlSafeChar_not_whitespace c hc]

theorem validateNonce_of_urlSafe (l : List Char) (hne : l ≠ [])
    (hchars : l.all isUrlSafeChar = true) :
    (32 ≤ l.length → l.length ≤ 255 →
      validateNonce (String.mk l) = Except.ok (String.mk l)) ∧
    (l.length < 32 → validateNonce (String.mk l) =
      Except.error "Nonce must be at least 32 characters long for security") := by
  have hblank := not_blank_of_urlSafe l hne hchars
  have hlen : (String.mk l).length = l.length := rfl
  have hempty : l.isEmpty = false := by
    cases l
    · exact absurd rfl hne
    · rfl
  constructor
  · intro h32 h255
    unfold validateNonce
    rw [hblank, hlen]
    rw [if_neg (by simp), if_neg (Nat.not_lt.mpr h32), if_neg (by omega)]
    rw [if_neg ?_]
    show ¬(!(!(String.mk l).data.isEmpty && (String.mk l).data.all isUrlSafeChar)) = true
    show ¬(!(!l.isEmpty && l.all isUrlSafeChar)) = true
    rw [hempty, hchars]
    decide
  · intro h32
    unfold validateNonce
    rw [hblank, hlen]
    rw [if_neg (by simp), if_pos h32]

/-- C4 (amended).  getUrlSafeNonce rejects byteLength below 16 or above
128 with a parameter error; in range it returns the URL-safe base64
encoding of the supplied random bytes, unpadded, with exactly
ceil(4n/3) characters - every character in the URL-safe alphabet.  The
result passes validateNonce only from byteLength 24 up; for byteLength
16 to 23 the output is shorter than the 32-character minimum that
validateNonce enforces and is rejected (see the counterexample). -/
theorem C4_generate_properties :
    (∀ byteLength randomBytes, byteLength < 16 ∨ 128 < byteLength →
      getUrlSafeNonce byteLength randomBytes =
        Except.error (if byteLength < 16 then "Nonce must be at least 16 bytes long for security"
          else "Nonce length should not exceed 128 bytes")) ∧
    (∀ byteLength randomBytes, 16 ≤ byteLength → byteLength ≤ 128 →
      List.length randomBytes = byteLength →
      getUrlSafeNonce byteLength randomBytes =
        Except.ok (String.mk (encodeBase64Url randomBytes)) ∧
      (String.mk (encodeBase64Url randomBytes)).length = (4 * byteLength + 2) / 3 ∧
      (encodeBase64Url randomBytes).all isUrlSafeChar = true ∧
      (24 ≤ byteLength → validateNonce (String.mk (encodeBase64Url randomBytes)) =
        Except.ok (String.mk (encodeBase64Url randomBytes))) ∧
      (byteLength ≤ 23 → validateNonce (String.mk (encodeBase64Url randomBytes)) =
        Except.error "Nonce must be at least 32 characters long for security")) := by
  constructor
  · intro byteLength randomBytes hout
    unfold getUrlSafeNonce
    rcases hout with hlt | hgt
    · rw [if_pos hlt, if_pos hlt]
    · rw [if_neg (by omega), if_pos (by omega), if_neg (by omega)]
  · intro byteLength randomBytes h16 h128 hlen
    have hchars := encodeBase64Url_chars randomBytes
    have hclen : (encodeBase64Url randomBytes).length = (4 * byteLength + 2) / 3 := by
      rw [encodeBase64Url_length, hlen]
    have hne : encodeBase64Url randomBytes ≠ [] := by
      intro he
      rw [he] at hclen
      simp at hclen
      omega
    have hval := validateNonce_of_urlSafe (encodeBase64Url randomBytes) hne hchars
    refine ⟨?_, hclen, hchars, ?_, ?_⟩
    · unfold getUrlSafeNonce
      rw [if_neg (by omega), if_neg (by omega)]
    · intro h24
      exact hval.1 (by omega) (by omega)
    · intro h23
      exact hval.2 (by omega)

/-- Witness for C4 at byteLength 10 (rejected), 32 (accepted, passes
validateNonce) and 16 (accepted, 22 characters). -/
theorem C4_generate_properties_witness :
    getUrlSafeNonce 10 [] =
      Except.error "Nonce must be at least 16 bytes long for security" ∧
    getUrlSafeNonce 32 (List.replicate 32 0) =
      Except.ok (String.mk (encodeBase64Url (List.replicate 32 0))) ∧
    validateNonce (String.mk (encodeBase64Url (List.replicate 32 0))) =
      Except.ok (String.mk (encodeBase64Url (List.replicate 32 0))) ∧
    (String.mk (encodeBase64Url (List.replicate 16 0))).length = 22 := by
  have h10 := C4_generate_properties.1 10 [] (Or.inl (by omega))
  have h32 := C4_generate_properties.2 32 (List.replicate 32 0) (by omega) (by omega)
    (by simp)
  have h16 := C4_generate_properties.2 16 (List.replicate 16 0) (by omega) (by omega)
    (by simp)
  refine ⟨by simpa using h10, h32.1, h32.2.2.2.1 (by omega), ?_⟩
  rw [h16.2.1]

/-- Counterexample to C4 as stated: generate(16) yields a 22-character
string, which validateNonce rejects as shorter than 32 characters, so
a generated nonce does not always pass the format validation. -/
theorem C4_counterexample :
    getUrlSafeNonce 16 (List.replicate 16 0) =
      Except.ok (String.mk (List.replicate 22 'A')) ∧
    validateNonce (String.mk (List.replicate 22 'A')) =
      Except.error "Nonce must be at least 32 characters long for security" := by
  exact ⟨by decide, by decide⟩

end GoogleSigninModern
